import Mathlib

/-!
Shallow embedding of the cortx-utils package validator
(src/py-utils/src/utils/validator/v_pkg.py, class PkgV).

Strings are modelled as lists of characters. The external collaborators
(the passwordless-ssh probe NetworkV, the SSHChannel session, the
SimpleProcess runner) are modelled as an environment record of oracle
functions; utf-8 decoding of process output is the identity, since the
model works with text directly. Observable interactions are recorded in
an event trace.
-/

abbrev Str := List Char

/-- The errno code errno.EINVAL, used by every VError this module raises. -/
def EINVAL : Nat := 22

/-- Exceptions that can escape the validator: the structured VError
(code plus message), or the unguarded AttributeError raised when the
None result of a failed re.search is dereferenced with .groups(). -/
inductive PyErr where
  | verror (code : Nat) (msg : Str)
  | attributeError
deriving DecidableEq

/-- Observable interactions with the collaborators during a call. -/
inductive Event where
  | probe (host : Str)
  | sshConnect (host user passwd port : Str)
  | execSsh (cmd : Str)
  | execLocal (cmd : Str)
  | disconnect
deriving DecidableEq

/-- True exactly for the events that execute a command. -/
def isExec : Event → Bool
  | .execSsh _ => true
  | .execLocal _ => true
  | _ => false

/-- Connection state of a PkgV instance. The constructor sets
passwdless_ssh_enabled to False and ssh to None. The ssh field only
records whether a session object is held; the execute method of the
session is the sshExec oracle of the environment. -/
structure PkgV where
  passwdless_ssh_enabled : Bool
  ssh : Option Unit
deriving DecidableEq

/-- State produced by the PkgV constructor. -/
def PkgV.init : PkgV := { passwdless_ssh_enabled := false, ssh := none }

/-- Oracles for the external collaborators. probeOk models the
passwordless-ssh capability check for the current OS user against a host
(the local username argument is ambient and constant, so it is left
implicit); sshConnectOk models whether SSHChannel construction succeeds,
with connectErr the traceback text rendered on failure; sshExec models
session.execute(cmd) returning (returncode, output); procRun models
SimpleProcess(cmd).run() returning (stdout, stderr, returncode). -/
structure Env where
  probeOk : Str → Bool
  sshConnectOk : Bool
  connectErr : Str
  sshExec : Str → Int × Str
  procRun : Str → Str × Str × Int

/-- Python targets argument: either a plain list of package names, or a
dict from package name to expected version. A dict is modelled as its
entry list: keys distinct, in insertion order. -/
inductive Targets where
  | plain (names : List Str)
  | mapping (entries : List (Str × Str))
deriving DecidableEq

/-- The isinstance(pkgs, dict) test. -/
def Targets.isMapping : Targets → Bool
  | .plain _ => false
  | .mapping _ => true

/-- Iteration view of the targets: for a dict, each key paired with its
value (for pkg in pkgs together with pkgs[pkg]); for a plain list, the
expected-version component is a placeholder that is never read, because
version checking is forced off for non-dict targets. -/
def targetEntries : Targets → List (Str × Str)
  | .plain names => names.map (fun n => (n, []))
  | .mapping entries => entries

/-- Python substring test: result.find(sub) different from -1. -/
def containsSub (s sub : Str) : Bool :=
  if sub.isPrefixOf s then true
  else
    match s with
    | [] => false
    | _ :: t => containsSub t sub

/-- Ascii approximation of the regex class for word characters. -/
def isWordChar (c : Char) : Bool := c.isAlphanum || c == '_'

/-- The regex class of digits and dots used in the rpm version pattern. -/
def isVerChar (c : Char) : Bool := c.isDigit || c == '.'

/-- Try to match the rpm version pattern pkg-([^-][0-9.]+)- at the start
of rest, returning the captured group. The package name is taken
literally: the source interpolates it into the regex unescaped, and the
model assumes names free of regex metacharacters. Greediness is
deterministic here: a shorter digits-and-dots run always ends at a
digit or dot, never at the dash the pattern requires next. -/
def rpmVerAt (pkg rest : Str) : Option Str :=
  if (pkg ++ ['-']).isPrefixOf rest then
    match rest.drop (pkg.length + 1) with
    | [] => none
    | c :: rest2 =>
      if c == '-' then none
      else
        let run := rest2.takeWhile isVerChar
        if run.isEmpty then none
        else
          match rest2.drop run.length with
          | '-' :: _ => some (c :: run)
          | _ => none
  else none

/-- re.search of the rpm version pattern: leftmost position wins. -/
def rpmVersionSearch (pkg : Str) : Str → Option Str
  | [] => rpmVerAt pkg []
  | c :: t =>
    match rpmVerAt pkg (c :: t) with
    | some g => some g
    | none => rpmVersionSearch pkg t

/-- Split a newline-free line before its last closing parenthesis:
the greedy capture of the dot-star group in the pip pattern. -/
def lastParenSplit : Str → Option Str
  | [] => none
  | c :: t =>
    match lastParenSplit t with
    | some g => some (c :: g)
    | none => if c == ')' then some [] else none

/-- Try to match the pip version pattern at the start of rest: the
package name, a space, an opening parenthesis, then a greedy dot-star
group closed by a parenthesis. Dot does not cross a newline. -/
def pipVerAt (pkg rest : Str) : Option Str :=
  if (pkg ++ " (".data).isPrefixOf rest then
    lastParenSplit ((rest.drop (pkg.length + 2)).takeWhile (fun c => c != '\n'))
  else none

/-- re.search of the pip version pattern: leftmost position wins. -/
def pipVersionSearch (pkg : Str) : Str → Option Str
  | [] => pipVerAt pkg []
  | c :: t =>
    match pipVerAt pkg (c :: t) with
    | some g => some g
    | none => pipVersionSearch pkg t

/-- Greedy match of dot-star, colon, digits-plus: returns the group
captured so far and the digit group. Preferring the deeper (longer)
alternative first reproduces greedy backtracking. -/
def g34core : Str → Option (Str × Str)
  | [] => none
  | c :: t =>
    match (if c == '\n' then none else (g34core t).map (fun r => (c :: r.1, r.2))) with
    | some r => some r
    | none =>
      if c == ':' then
        let ds := t.takeWhile Char.isDigit
        if ds.isEmpty then none else some ([], ds)
      else none

/-- Greedy match of dot-plus, colon, digits-plus at the start. -/
def g34At : Str → Option (Str × Str)
  | [] => none
  | c :: t =>
    if c == '\n' then none
    else (g34core t).map (fun r => (c :: r.1, r.2))

/-- Greedy match of dot-star, at-sign, dot-plus, colon, digits-plus. -/
def g2core : Str → Option (Str × Str × Str)
  | [] => none
  | c :: t =>
    match (if c == '\n' then none else (g2core t).map (fun r => (c :: r.1, r.2))) with
    | some r => some r
    | none =>
      if c == '@' then (g34At t).map (fun r => ([], r.1, r.2))
      else none

/-- Greedy match of dot-plus, at-sign, dot-plus, colon, digits-plus. -/
def g2At : Str → Option (Str × Str × Str)
  | [] => none
  | c :: t =>
    if c == '\n' then none
    else (g2core t).map (fun r => (c :: r.1, r.2))

/-- Try the full host pattern at the start of s: a nonempty run of word
characters, a colon, then the remaining three groups. Backtracking the
word run is useless, since a shorter run still faces a word character
where the colon must be, so the maximal run is the only candidate. -/
def hostPatAt (s : Str) : Option (Str × Str × Str × Str) :=
  let run := s.takeWhile isWordChar
  if run.isEmpty then none
  else
    match s.drop run.length with
    | ':' :: rest => (g2At rest).map (fun r => (run, r.1, r.2.1, r.2.2))
    | _ => none

/-- re.search of the host pattern over the host string: leftmost
starting position wins, as in the source line
re.search of (word-plus, colon, dot-plus, at, dot-plus, colon,
digits-plus) applied to host. -/
def hostSearch : Str → Option (Str × Str × Str × Str)
  | [] => none
  | c :: t =>
    match hostPatAt (c :: t) with
    | some r => some r
    | none => hostSearch t

/-- Message of the invalid host-url VError. -/
def invalidHostMsg : Str :=
  "Invalid host_url format is given for passwordless ssh not configured host.".data

/-- Message of the ssh-connection-failure VError. -/
def connFailMsg (host err : Str) : Str :=
  "Failed to create ssh connection to ".data ++ host ++ ", Error: ".data ++ err

/-- Message of the command-failure VError. -/
def cmdFailMsg (cmd result : Str) : Str :=
  "Command failure. cmd: ".data ++ cmd ++ " stderr: ".data ++ result

/-- Message of the rpm package-not-installed VError. -/
def notInstalledRpmMsg (pkg : Str) : Str :=
  "rpm pkg ".data ++ pkg ++ " not installed.".data

/-- Message of the rpm version-mismatch VError. -/
def mismatchRpmMsg (pkg installed expected : Str) : Str :=
  "Mismatched version for rpm package ".data ++ pkg ++ ". Installed ".data ++
    installed ++ ". Expected ".data ++ expected ++ ".".data

/-- Message of the pip3 package-not-installed VError. -/
def notInstalledPipMsg (pkg : Str) : Str :=
  "pip3 pkg ".data ++ pkg ++ " not installed.".data

/-- Message of the pip3 version-mismatch VError. -/
def mismatchPipMsg (pkg installed expected : Str) : Str :=
  "Mismatched version for pip3 package ".data ++ pkg ++ ". Installed ".data ++
    installed ++ ". Expected ".data ++ expected ++ ".".data

/-- Message of the unsupported-action VError. -/
def unsupportedMsg (v_type : Str) : Str :=
  "Action parameter ".data ++ v_type ++ " not supported".data

/-- Rendering of the host argument by percent-s formatting: the Python
None value prints as the text None. -/
def formatHost : Option Str → Str
  | none => "None".data
  | some h => h

/-- The private command executor. With a session present it delegates to
session.execute; otherwise it spawns a local process, decodes stdout and
stderr, and selects stdout on a zero return code and stderr otherwise.
A nonzero return code raises the command-failure VError built from the
command and the selected output; a zero return code returns the output. -/
def execute_cmd (env : Env) (st : PkgV) (cmd : Str) : Except PyErr Str × List Event :=
  match st.ssh with
  | some _ =>
    let p := env.sshExec cmd
    if p.1 ≠ 0 then (.error (.verror EINVAL (cmdFailMsg cmd p.2)), [.execSsh cmd])
    else (.ok p.2, [.execSsh cmd])
  | none =>
    let t := env.procRun cmd
    let result := if t.2.2 = 0 then t.1 else t.2.1
    if t.2.2 ≠ 0 then (.error (.verror EINVAL (cmdFailMsg cmd result)), [.execLocal cmd])
    else (.ok result, [.execLocal cmd])

/-- The per-package loop of validate_rpm_pkgs over the iteration view of
the targets: absence raises the not-installed VError; with version
checking on, a failed version search leaves a None that the .groups()
dereference turns into an AttributeError, and a version different from
the expected one raises the mismatch VError. -/
def checkPkgsRpm (skip : Bool) (result : Str) : List (Str × Str) → Except PyErr Unit
  | [] => .ok ()
  | (pkg, expected) :: rest =>
    if containsSub result pkg = false then
      .error (.verror EINVAL (notInstalledRpmMsg pkg))
    else if skip = false then
      match rpmVersionSearch pkg result with
      | none => .error .attributeError
      | some installed =>
        if installed ≠ expected then
          .error (.verror EINVAL (mismatchRpmMsg pkg installed expected))
        else checkPkgsRpm skip result rest
    else checkPkgsRpm skip result rest

/-- The per-package loop of validate_pip3_pkgs; same shape as the rpm
loop with the pip3 pattern and messages. -/
def checkPkgsPip (skip : Bool) (result : Str) : List (Str × Str) → Except PyErr Unit
  | [] => .ok ()
  | (pkg, expected) :: rest =>
    if containsSub result pkg = false then
      .error (.verror EINVAL (notInstalledPipMsg pkg))
    else if skip = false then
      match pipVersionSearch pkg result with
      | none => .error .attributeError
      | some installed =>
        if installed ≠ expected then
          .error (.verror EINVAL (mismatchPipMsg pkg installed expected))
        else checkPkgsPip skip result rest
    else checkPkgsPip skip result rest

/-- Base command of the rpm validator. -/
def rpmBaseCmd : Str := "rpm -qa".data

/-- Base command of the pip3 validator. -/
def pipBaseCmd : Str := "pip3 list".data

/-- Command the rpm validator executes: wrapped with the ssh prefix when
the passwordless flag is set, the base command otherwise. -/
def rpmCmdFor (st : PkgV) (host : Option Str) : Str :=
  if st.passwdless_ssh_enabled then "ssh ".data ++ formatHost host ++ " ".data ++ rpmBaseCmd
  else rpmBaseCmd

/-- Command the pip3 validator executes. -/
def pipCmdFor (st : PkgV) (host : Option Str) : Str :=
  if st.passwdless_ssh_enabled then "ssh ".data ++ formatHost host ++ " ".data ++ pipBaseCmd
  else pipBaseCmd

/-- validate_rpm_pkgs: force version checking off for non-dict targets,
build the command, execute it, then run the per-package loop. -/
def validate_rpm_pkgs (env : Env) (st : PkgV) (host : Option Str) (pkgs : Targets)
    (skip_version_check : Bool) : Except PyErr Unit × List Event :=
  let skip := if pkgs.isMapping then skip_version_check else true
  match execute_cmd env st (rpmCmdFor st host) with
  | (.error e, tr) => (.error e, tr)
  | (.ok result, tr) => (checkPkgsRpm skip result (targetEntries pkgs), tr)

/-- validate_pip3_pkgs: same shape as the rpm validator. -/
def validate_pip3_pkgs (env : Env) (st : PkgV) (host : Option Str) (pkgs : Targets)
    (skip_version_check : Bool) : Except PyErr Unit × List Event :=
  let skip := if pkgs.isMapping then skip_version_check else true
  match execute_cmd env st (pipCmdFor st host) with
  | (.error e, tr) => (.error e, tr)
  | (.ok result, tr) => (checkPkgsPip skip result (targetEntries pkgs), tr)

/-- The host block at the top of validate. A falsy host (None or the
empty string) skips the block. Otherwise the passwordless probe runs:
on success the passwordless flag is set; on a VError the host string is
searched with the host pattern, a failed search raises the invalid
host-url VError, and a successful one rebinds host to the third group
and constructs the session, whose failure raises the connection VError.
Returns the updated state and the possibly rebound host. -/
def connPhase (env : Env) (st : PkgV) (host : Option Str) :
    Except PyErr (PkgV × Option Str) × List Event :=
  match host with
  | none => (.ok (st, none), [])
  | some h =>
    if h.isEmpty then (.ok (st, some h), [])
    else if env.probeOk h then
      (.ok ({ st with passwdless_ssh_enabled := true }, some h), [.probe h])
    else
      match hostSearch h with
      | none => (.error (.verror EINVAL invalidHostMsg), [.probe h])
      | some (user, passwd, hostPart, port) =>
        if env.sshConnectOk then
          (.ok ({ st with ssh := some () }, some hostPart),
            [.probe h, .sshConnect hostPart user passwd port])
        else
          (.error (.verror EINVAL (connFailMsg hostPart env.connectErr)),
            [.probe h, .sshConnect hostPart user passwd port])

/-- The public entry point validate. After the host block it dispatches
on the kind tag, calling the per-kind validator with the
skip_version_check parameter at its default value True, since the source
call sites pass only host and args; an unknown tag raises the
unsupported-action VError. The source line that would disconnect the
session stands after this dispatch, in which every branch returns or
raises, so it is unreachable and no disconnect event is ever emitted.
Returns the outcome, the final instance state, and the event trace. -/
def validate (env : Env) (st : PkgV) (v_type : Str) (args : Targets) (host : Option Str) :
    Except PyErr Unit × PkgV × List Event :=
  match connPhase env st host with
  | (.error e, tr) => (.error e, st, tr)
  | (.ok (st1, host1), tr) =>
    if v_type = "rpms".data then
      let r := validate_rpm_pkgs env st1 host1 args true
      (r.1, st1, tr ++ r.2)
    else if v_type = "pip3s".data then
      let r := validate_pip3_pkgs env st1 host1 args true
      (r.1, st1, tr ++ r.2)
    else
      (.error (.verror EINVAL (unsupportedMsg v_type)), st1, tr)

/-- Helper for the spec-shape predicate: the tail after the separating
colon is a nonempty run of digits, or the colon is still inside the host
part and the scan continues. -/
def colonDigitsAux : Str → Bool
  | [] => false
  | c :: t => (c == ':' && !t.isEmpty && t.all Char.isDigit) || colonDigitsAux t

/-- Helper for the spec-shape predicate: a nonempty host part, a colon,
then a nonempty run of digits, consuming the whole string. -/
def hostPortShape : Str → Bool
  | [] => false
  | _ :: t => colonDigitsAux t

/-- Helper for the spec-shape predicate: scan for the at-sign splitting
password from host-and-port. -/
def atSplitAux : Str → Bool
  | [] => false
  | c :: t => (c == '@' && hostPortShape t) || atSplitAux t

/-- Helper for the spec-shape predicate: a nonempty password part, an
at-sign, then host and port. -/
def passAtShape : Str → Bool
  | [] => false
  | _ :: t => atSplitAux t

/-- Modelled from the spec: the host string has, as a whole, exactly the
shape user colon password at-sign host colon port, anchored at both
ends, with user a nonempty run of word characters, password and host
nonempty, and port a nonempty run of digits. This is the exact shape
the spec sentences require; it is compared against the unanchored
search the code performs. -/
def exactShapeHost (s : Str) : Bool :=
  let run := s.takeWhile isWordChar
  !run.isEmpty &&
    match s.drop run.length with
    | ':' :: rest => passAtShape rest
    | _ => false

/-- Environment builder for concrete runs: a constant probe answer, a
constant connection answer, and both runners returning the given output
with return code zero. -/
def mkEnv (probe connect : Bool) (out : Str) : Env :=
  { probeOk := fun _ => probe
    sshConnectOk := connect
    connectErr := "trace".data
    sshExec := fun _ => (0, out)
    procRun := fun _ => (out, [], 0) }

/-! ### Helper lemmas -/

theorem isEmpty_false_of_ne_nil {l : Str} (h : l ≠ []) : l.isEmpty = false := by
  cases l with
  | nil => exact absurd rfl h
  | cons c t => rfl

theorem execute_cmd_none (env : Env) (st : PkgV) (cmd so se : Str) (rc : Int)
    (hssh : st.ssh = none) (hrun : env.procRun cmd = (so, se, rc)) :
    execute_cmd env st cmd =
      ((if rc = 0 then Except.ok so else Except.error (.verror EINVAL (cmdFailMsg cmd se))),
        [Event.execLocal cmd]) := by
  unfold execute_cmd
  rw [hssh]
  simp only [hrun]
  by_cases h : rc = 0 <;> simp [h]

theorem execute_cmd_some (env : Env) (st : PkgV) (cmd outp : Str) (u : Unit) (rc : Int)
    (hssh : st.ssh = some u) (hrun : env.sshExec cmd = (rc, outp)) :
    execute_cmd env st cmd =
      ((if rc = 0 then Except.ok outp else Except.error (.verror EINVAL (cmdFailMsg cmd outp))),
        [Event.execSsh cmd]) := by
  unfold execute_cmd
  rw [hssh]
  simp only [hrun]
  by_cases h : rc = 0 <;> simp [h]

theorem execute_cmd_trace (env : Env) (st : PkgV) (cmd : Str) :
    (execute_cmd env st cmd).2 =
      (match st.ssh with
        | some _ => [Event.execSsh cmd]
        | none => [Event.execLocal cmd]) := by
  unfold execute_cmd
  cases st.ssh <;> dsimp only <;> split <;> rfl

/-- An entry of the rpm loop that falls through to the next iteration:
the package is present, and when version checking is on, the extracted
version equals the expected one. -/
def entryOkRpm (skip : Bool) (out pkg exp : Str) : Prop :=
  containsSub out pkg = true ∧ (skip = false → rpmVersionSearch pkg out = some exp)

/-- An entry of the pip3 loop that falls through to the next iteration. -/
def entryOkPip (skip : Bool) (out pkg exp : Str) : Prop :=
  containsSub out pkg = true ∧ (skip = false → pipVersionSearch pkg out = some exp)

theorem checkPkgsRpm_append (skip : Bool) (out : Str) (pre rest : List (Str × Str))
    (h : ∀ p e, (p, e) ∈ pre → entryOkRpm skip out p e) :
    checkPkgsRpm skip out (pre ++ rest) = checkPkgsRpm skip out rest := by
  induction pre with
  | nil => rfl
  | cons hd tl ih =>
    obtain ⟨p, e⟩ := hd
    obtain ⟨h1, h2⟩ := h p e (by simp)
    have ih2 := ih (fun q f hq => h q f (by simp [hq]))
    cases skip with
    | true => simp [checkPkgsRpm, h1, ih2]
    | false => simp [checkPkgsRpm, h1, h2 rfl, ih2]

theorem checkPkgsPip_append (skip : Bool) (out : Str) (pre rest : List (Str × Str))
    (h : ∀ p e, (p, e) ∈ pre → entryOkPip skip out p e) :
    checkPkgsPip skip out (pre ++ rest) = checkPkgsPip skip out rest := by
  induction pre with
  | nil => rfl
  | cons hd tl ih =>
    obtain ⟨p, e⟩ := hd
    obtain ⟨h1, h2⟩ := h p e (by simp)
    have ih2 := ih (fun q f hq => h q f (by simp [hq]))
    cases skip with
    | true => simp [checkPkgsPip, h1, ih2]
    | false => simp [checkPkgsPip, h1, h2 rfl, ih2]

theorem validate_rpm_pkgs_run (env : Env) (st : PkgV) (host : Option Str) (pkgs : Targets)
    (flag : Bool) (out : Str)
    (hE : (execute_cmd env st (rpmCmdFor st host)).1 = Except.ok out) :
    (validate_rpm_pkgs env st host pkgs flag).1 =
      checkPkgsRpm (if pkgs.isMapping then flag else true) out (targetEntries pkgs) := by
  unfold validate_rpm_pkgs
  rcases hp : execute_cmd env st (rpmCmdFor st host) with ⟨res, tr⟩
  rw [hp] at hE
  simp at hE
  rw [hE]

theorem validate_pip3_pkgs_run (env : Env) (st : PkgV) (host : Option Str) (pkgs : Targets)
    (flag : Bool) (out : Str)
    (hE : (execute_cmd env st (pipCmdFor st host)).1 = Except.ok out) :
    (validate_pip3_pkgs env st host pkgs flag).1 =
      checkPkgsPip (if pkgs.isMapping then flag else true) out (targetEntries pkgs) := by
  unfold validate_pip3_pkgs
  rcases hp : execute_cmd env st (pipCmdFor st host) with ⟨res, tr⟩
  rw [hp] at hE
  simp at hE
  rw [hE]

theorem validate_rpm_pkgs_trace (env : Env) (st : PkgV) (host : Option Str) (pkgs : Targets)
    (flag : Bool) :
    (validate_rpm_pkgs env st host pkgs flag).2 = (execute_cmd env st (rpmCmdFor st host)).2 := by
  unfold validate_rpm_pkgs
  rcases hp : execute_cmd env st (rpmCmdFor st host) with ⟨res, tr⟩
  cases res <;> simp

theorem validate_pip3_pkgs_trace (env : Env) (st : PkgV) (host : Option Str) (pkgs : Targets)
    (flag : Bool) :
    (validate_pip3_pkgs env st host pkgs flag).2 = (execute_cmd env st (pipCmdFor st host)).2 := by
  unfold validate_pip3_pkgs
  rcases hp : execute_cmd env st (pipCmdFor st host) with ⟨res, tr⟩
  cases res <;> simp

theorem connPhase_none (env : Env) (st : PkgV) :
    connPhase env st none = (Except.ok (st, none), []) := rfl

theorem connPhase_probe (env : Env) (st : PkgV) (h : Str)
    (hne : h ≠ []) (hp : env.probeOk h = true) :
    connPhase env st (some h) =
      (Except.ok ({ st with passwdless_ssh_enabled := true }, some h), [Event.probe h]) := by
  simp [connPhase, isEmpty_false_of_ne_nil hne, hp]

theorem connPhase_badHost (env : Env) (st : PkgV) (h : Str)
    (hne : h ≠ []) (hp : env.probeOk h = false) (hs : hostSearch h = none) :
    connPhase env st (some h) =
      (Except.error (.verror EINVAL invalidHostMsg), [Event.probe h]) := by
  simp [connPhase, isEmpty_false_of_ne_nil hne, hp, hs]

theorem connPhase_connect (env : Env) (st : PkgV) (h user passwd hostPart port : Str)
    (hne : h ≠ []) (hp : env.probeOk h = false)
    (hs : hostSearch h = some (user, passwd, hostPart, port))
    (hc : env.sshConnectOk = true) :
    connPhase env st (some h) =
      (Except.ok ({ st with ssh := some () }, some hostPart),
        [Event.probe h, Event.sshConnect hostPart user passwd port]) := by
  simp [connPhase, isEmpty_false_of_ne_nil hne, hp, hs, hc]

theorem connPhase_flag_mono (env : Env) (st : PkgV) (host : Option Str)
    (st1 : PkgV) (host1 : Option Str) (tr : List Event)
    (hc : connPhase env st host = (Except.ok (st1, host1), tr))
    (hp : st.passwdless_ssh_enabled = true) :
    st1.passwdless_ssh_enabled = true := by
  cases host with
  | none =>
    simp [connPhase] at hc
    rw [← hc.1.1, hp]
  | some h =>
    simp only [connPhase] at hc
    by_cases he : h.isEmpty
    · rw [if_pos he] at hc
      simp at hc
      rw [← hc.1.1, hp]
    · rw [if_neg he] at hc
      by_cases hpr : env.probeOk h
      · rw [if_pos (by rw [hpr])] at hc
        simp at hc
        rw [← hc.1.1]
      · rw [if_neg (by rw [Bool.not_eq_true] at hpr; rw [hpr]; exact Bool.false_ne_true)] at hc
        rcases hhs : hostSearch h with _ | ⟨u, pw, hp2, port⟩
        · rw [hhs] at hc
          simp at hc
        · rw [hhs] at hc
          by_cases hco : env.sshConnectOk = true
          · simp [hco] at hc
            rw [← hc.1.1, hp]
          · simp [hco] at hc

theorem connPhase_no_exec (env : Env) (st : PkgV) (host : Option Str) :
    ∀ e, e ∈ (connPhase env st host).2 → isExec e = false := by
  cases host with
  | none => intro e he; simp [connPhase] at he
  | some h =>
    simp only [connPhase]
    by_cases he : h.isEmpty
    · rw [if_pos he]; intro e hee; simp at hee
    · rw [if_neg he]
      by_cases hpr : env.probeOk h = true
      · rw [if_pos hpr]
        intro e hee
        simp at hee
        rw [hee]; rfl
      · rw [if_neg hpr]
        rcases hhs : hostSearch h with _ | ⟨u, pw, hp2, port⟩
        · intro e hee
          simp at hee
          rw [hee]; rfl
        · by_cases hco : env.sshConnectOk = true
          · intro e hee
            simp [hco] at hee
            rcases hee with h1 | h1 <;> rw [h1] <;> rfl
          · intro e hee
            simp [hco] at hee
            rcases hee with h1 | h1 <;> rw [h1] <;> rfl

theorem validate_connError (env : Env) (st : PkgV) (v_type : Str) (args : Targets)
    (host : Option Str) (e : PyErr) (tr : List Event)
    (hc : connPhase env st host = (Except.error e, tr)) :
    validate env st v_type args host = (Except.error e, st, tr) := by
  unfold validate
  rw [hc]

theorem validate_dispatch_rpm (env : Env) (st : PkgV) (v_type : Str) (args : Targets)
    (host : Option Str) (st1 : PkgV) (host1 : Option Str) (tr : List Event)
    (hc : connPhase env st host = (Except.ok (st1, host1), tr))
    (hv : v_type = "rpms".data) :
    validate env st v_type args host =
      ((validate_rpm_pkgs env st1 host1 args true).1, st1,
        tr ++ (validate_rpm_pkgs env st1 host1 args true).2) := by
  subst hv
  unfold validate
  rw [hc]
  simp

theorem validate_dispatch_pip (env : Env) (st : PkgV) (v_type : Str) (args : Targets)
    (host : Option Str) (st1 : PkgV) (host1 : Option Str) (tr : List Event)
    (hc : connPhase env st host = (Except.ok (st1, host1), tr))
    (hv : v_type = "pip3s".data) :
    validate env st v_type args host =
      ((validate_pip3_pkgs env st1 host1 args true).1, st1,
        tr ++ (validate_pip3_pkgs env st1 host1 args true).2) := by
  subst hv
  unfold validate
  rw [hc]
  simp

theorem validate_dispatch_other (env : Env) (st : PkgV) (v_type : Str) (args : Targets)
    (host : Option Str) (st1 : PkgV) (host1 : Option Str) (tr : List Event)
    (hc : connPhase env st host = (Except.ok (st1, host1), tr))
    (hv1 : v_type ≠ "rpms".data) (hv2 : v_type ≠ "pip3s".data) :
    validate env st v_type args host =
      (Except.error (.verror EINVAL (unsupportedMsg v_type)), st1, tr) := by
  unfold validate
  rw [hc]
  simp [hv1, hv2]

theorem validate_flag_mono (env : Env) (st : PkgV) (v_type : Str) (args : Targets)
    (host : Option Str) (hp : st.passwdless_ssh_enabled = true) :
    (validate env st v_type args host).2.1.passwdless_ssh_enabled = true := by
  rcases hc : connPhase env st host with ⟨res, tr⟩
  cases res with
  | error e =>
    rw [validate_connError env st v_type args host e tr hc]
    exact hp
  | ok p =>
    obtain ⟨st1, host1⟩ := p
    have h1 := connPhase_flag_mono env st host st1 host1 tr hc hp
    by_cases hv1 : v_type = "rpms".data
    · rw [validate_dispatch_rpm env st v_type args host st1 host1 tr hc hv1]
      exact h1
    · by_cases hv2 : v_type = "pip3s".data
      · rw [validate_dispatch_pip env st v_type args host st1 host1 tr hc hv2]
        exact h1
      · rw [validate_dispatch_other env st v_type args host st1 host1 tr hc hv1 hv2]
        exact h1

theorem checkPkgsRpm_all_ok (skip : Bool) (out : Str) (entries : List (Str × Str))
    (h : ∀ p e, (p, e) ∈ entries → entryOkRpm skip out p e) :
    checkPkgsRpm skip out entries = Except.ok () := by
  have h2 := checkPkgsRpm_append skip out entries [] h
  rw [List.append_nil] at h2
  rw [h2]
  rfl

theorem checkPkgsPip_all_ok (skip : Bool) (out : Str) (entries : List (Str × Str))
    (h : ∀ p e, (p, e) ∈ entries → entryOkPip skip out p e) :
    checkPkgsPip skip out entries = Except.ok () := by
  have h2 := checkPkgsPip_append skip out entries [] h
  rw [List.append_nil] at h2
  rw [h2]
  rfl

/-! ### Claim theorems -/

/-- C7: the command executor delegates to the session when one exists,
and otherwise spawns a local process whose output value is stdout on a
zero return code and stderr otherwise; in either path a nonzero return
code yields the command-failure VError whose message includes the
original command string and the captured output, and a zero return code
returns the raw output text. -/
theorem C7_theorem (env : Env) (st : PkgV) (cmd : Str) :
    (∀ so se rc, st.ssh = none → env.procRun cmd = (so, se, rc) →
      execute_cmd env st cmd =
        ((if rc = 0 then Except.ok so
          else Except.error (.verror EINVAL (cmdFailMsg cmd se))), [Event.execLocal cmd]))
    ∧ (∀ u rc outp, st.ssh = some u → env.sshExec cmd = (rc, outp) →
      execute_cmd env st cmd =
        ((if rc = 0 then Except.ok outp
          else Except.error (.verror EINVAL (cmdFailMsg cmd outp))), [Event.execSsh cmd]))
    ∧ (∀ outp, ∃ a b, cmdFailMsg cmd outp = a ++ cmd ++ b ++ outp) := by
  refine ⟨?_, ?_, ?_⟩
  · intro so se rc hssh hrun
    exact execute_cmd_none env st cmd so se rc hssh hrun
  · intro u rc outp hssh hrun
    exact execute_cmd_some env st cmd outp u rc hssh hrun
  · intro outp
    exact ⟨"Command failure. cmd: ".data, " stderr: ".data, rfl⟩

def envC7 : Env := mkEnv false false "ok-output".data

/-- C7 witness: a concrete local run with return code zero returns the
output text. -/
theorem C7_witness :
    execute_cmd envC7 PkgV.init "rpm -qa".data =
      (Except.ok "ok-output".data, [Event.execLocal "rpm -qa".data]) := by
  have h := (C7_theorem envC7 PkgV.init "rpm -qa".data).1 "ok-output".data [] 0 rfl rfl
  simpa using h

/-- C4: a plain-list request whose names all occur in the executed
output validates successfully, for both validators, and the
skip_version_check flag makes no difference at all to a plain-list run:
version checking is skipped regardless. -/
theorem C4_theorem (env : Env) (st : PkgV) (host : Option Str) (names : List Str)
    (flag : Bool) (outR outP : Str)
    (hR : (execute_cmd env st (rpmCmdFor st host)).1 = Except.ok outR)
    (hP : (execute_cmd env st (pipCmdFor st host)).1 = Except.ok outP)
    (hnR : ∀ n, n ∈ names → containsSub outR n = true)
    (hnP : ∀ n, n ∈ names → containsSub outP n = true) :
    (validate_rpm_pkgs env st host (Targets.plain names) flag).1 = Except.ok () ∧
    (validate_pip3_pkgs env st host (Targets.plain names) flag).1 = Except.ok () ∧
    validate_rpm_pkgs env st host (Targets.plain names) flag =
      validate_rpm_pkgs env st host (Targets.plain names) true ∧
    validate_pip3_pkgs env st host (Targets.plain names) flag =
      validate_pip3_pkgs env st host (Targets.plain names) true := by
  have hokR : ∀ p e, (p, e) ∈ targetEntries (Targets.plain names) → entryOkRpm true outR p e := by
    intro p e hpe
    simp [targetEntries] at hpe
    obtain ⟨n, hn, hnp, hee⟩ := hpe
    subst hnp
    exact ⟨hnR n hn, fun hskip => absurd hskip (by simp)⟩
  have hokP : ∀ p e, (p, e) ∈ targetEntries (Targets.plain names) → entryOkPip true outP p e := by
    intro p e hpe
    simp [targetEntries] at hpe
    obtain ⟨n, hn, hnp, hee⟩ := hpe
    subst hnp
    exact ⟨hnP n hn, fun hskip => absurd hskip (by simp)⟩
  refine ⟨?_, ?_, rfl, rfl⟩
  · have h1 := validate_rpm_pkgs_run env st host (Targets.plain names) flag outR hR
    rw [h1]
    exact checkPkgsRpm_all_ok true outR _ hokR
  · have h1 := validate_pip3_pkgs_run env st host (Targets.plain names) flag outP hP
    rw [h1]
    exact checkPkgsPip_all_ok true outP _ hokP

def outC4 : Str := "bash-4.4.19-12.x86_64 curl-7.61.1-1.x86_64".data

def envC4 : Env := mkEnv false false outC4

/-- C4 witness: both names present in the mocked output, plain list,
version-check flag set to false, validation succeeds. -/
theorem C4_witness :
    (validate_rpm_pkgs envC4 PkgV.init none
        (Targets.plain ["bash".data, "curl".data]) false).1 = Except.ok () := by
  exact (C4_theorem envC4 PkgV.init none ["bash".data, "curl".data] false outC4 outC4
    rfl rfl (by decide) (by decide)).1

/-- C5: a requested package name absent from the executed output fails
the call with the not-installed VError naming that package, for both
validators, and the first missing name decides the error regardless of
the names listed after it. -/
theorem C5_theorem (env : Env) (st : PkgV) (host : Option Str)
    (pre post : List Str) (p : Str) (flagR flagP : Bool) (outR outP : Str)
    (hR : (execute_cmd env st (rpmCmdFor st host)).1 = Except.ok outR)
    (hP : (execute_cmd env st (pipCmdFor st host)).1 = Except.ok outP)
    (hpreR : ∀ n, n ∈ pre → containsSub outR n = true)
    (hpreP : ∀ n, n ∈ pre → containsSub outP n = true)
    (hpR : containsSub outR p = false)
    (hpP : containsSub outP p = false) :
    (validate_rpm_pkgs env st host (Targets.plain (pre ++ p :: post)) flagR).1 =
      Except.error (.verror EINVAL (notInstalledRpmMsg p)) ∧
    (validate_pip3_pkgs env st host (Targets.plain (pre ++ p :: post)) flagP).1 =
      Except.error (.verror EINVAL (notInstalledPipMsg p)) := by
  constructor
  · have h1 := validate_rpm_pkgs_run env st host (Targets.plain (pre ++ p :: post)) flagR outR hR
    rw [h1]
    show checkPkgsRpm true outR (targetEntries (Targets.plain (pre ++ p :: post))) = _
    have h2 : targetEntries (Targets.plain (pre ++ p :: post)) =
        pre.map (fun n => (n, ([] : Str))) ++ (p, ([] : Str)) :: post.map (fun n => (n, ([] : Str))) := by
      simp [targetEntries]
    rw [h2, checkPkgsRpm_append true outR _ _ ?hpre]
    case hpre =>
      intro q f hq
      simp at hq
      obtain ⟨n, hn, hnq, hff⟩ := hq
      subst hnq
      exact ⟨hpreR n hn, fun hskip => absurd hskip (by simp)⟩
    simp [checkPkgsRpm, hpR]
  · have h1 := validate_pip3_pkgs_run env st host (Targets.plain (pre ++ p :: post)) flagP outP hP
    rw [h1]
    show checkPkgsPip true outP (targetEntries (Targets.plain (pre ++ p :: post))) = _
    have h2 : targetEntries (Targets.plain (pre ++ p :: post)) =
        pre.map (fun n => (n, ([] : Str))) ++ (p, ([] : Str)) :: post.map (fun n => (n, ([] : Str))) := by
      simp [targetEntries]
    rw [h2, checkPkgsPip_append true outP _ _ ?hpre]
    case hpre =>
      intro q f hq
      simp at hq
      obtain ⟨n, hn, hnq, hff⟩ := hq
      subst hnq
      exact ⟨hpreP n hn, fun hskip => absurd hskip (by simp)⟩
    simp [checkPkgsPip, hpP]

def outC5 : Str := "bash-4.4.19-12.x86_64".data

def envC5 : Env := mkEnv false false outC5

/-- C5 witness: the spec example with curl removed from the mocked
output; the call fails naming curl. -/
theorem C5_witness :
    (validate_rpm_pkgs envC5 PkgV.init none
        (Targets.plain ["bash".data, "curl".data]) true).1 =
      Except.error (.verror EINVAL (notInstalledRpmMsg "curl".data)) := by
  exact (C5_theorem envC5 PkgV.init none ["bash".data] [] "curl".data true true outC5 outC5
    rfl rfl (by decide) (by decide) (by decide) (by decide)).1

/-- C1 (amended): version checking in the rpm validator is gated by the
skip_version_check parameter, which validate leaves at its default True;
so with mapping targets and the gate opened (skip_version_check False):
when every extracted version equals the expected one the run succeeds,
and a first mismatching entry fails the run with the mismatch VError
naming the package and both versions. -/
theorem C1_theorem (env : Env) (host : Option Str) (out errout : Str)
    (entries : List (Str × Str))
    (hrun : env.procRun rpmBaseCmd = (out, errout, 0)) :
    ((∀ p e, (p, e) ∈ entries → containsSub out p = true ∧ rpmVersionSearch p out = some e) →
      (validate_rpm_pkgs env PkgV.init host (Targets.mapping entries) false).1 = Except.ok ())
    ∧
    (∀ pre p e post v, entries = pre ++ (p, e) :: post →
      (∀ q f, (q, f) ∈ pre → containsSub out q = true ∧ rpmVersionSearch q out = some f) →
      containsSub out p = true → rpmVersionSearch p out = some v → v ≠ e →
      (validate_rpm_pkgs env PkgV.init host (Targets.mapping entries) false).1 =
        Except.error (.verror EINVAL (mismatchRpmMsg p v e))) := by
  have hE0 := execute_cmd_none env PkgV.init (rpmCmdFor PkgV.init host) out errout 0 rfl hrun
  have hE : (execute_cmd env PkgV.init (rpmCmdFor PkgV.init host)).1 = Except.ok out := by
    rw [hE0]; simp
  have hrunlem := validate_rpm_pkgs_run env PkgV.init host (Targets.mapping entries) false out hE
  constructor
  · intro hall
    rw [hrunlem]
    show checkPkgsRpm false out entries = _
    exact checkPkgsRpm_all_ok false out entries
      (fun p e hpe => ⟨(hall p e hpe).1, fun _ => (hall p e hpe).2⟩)
  · intro pre p e post v hsplit hpre hp hv hne
    rw [hrunlem]
    show checkPkgsRpm false out (targetEntries (Targets.mapping entries)) = _
    rw [show targetEntries (Targets.mapping entries) = entries from rfl, hsplit,
      checkPkgsRpm_append false out pre ((p, e) :: post)
        (fun q f hq => ⟨(hpre q f hq).1, fun _ => (hpre q f hq).2⟩)]
    simp [checkPkgsRpm, hp, hv, hne]

def outC1 : Str := "bash-4.4.19-12.x86_64".data

def envC1 : Env := mkEnv false false outC1

/-- C1 counterexample: through validate, with mapping targets whose
expected version differs from the pattern-extracted installed version,
no mismatch VError is raised: the call succeeds, because validate never
passes skip_version_check and the default True skips the check. -/
theorem C1_counterexample :
    rpmVersionSearch "bash".data outC1 = some "4.4.19".data ∧
    ("4.4.19".data : Str) ≠ "9.9".data ∧
    (validate envC1 PkgV.init "rpms".data
        (Targets.mapping [("bash".data, "9.9".data)]) none).1 = Except.ok () :=
  ⟨rfl, by decide, rfl⟩

/-- C1 witness: with the gate opened explicitly, the same mismatching
entry raises the mismatch VError naming package and both versions. -/
theorem C1_witness :
    (validate_rpm_pkgs envC1 PkgV.init none
        (Targets.mapping [("bash".data, "9.9".data)]) false).1 =
      Except.error (.verror EINVAL (mismatchRpmMsg "bash".data "4.4.19".data "9.9".data)) := by
  exact (C1_theorem envC1 none outC1 [] [("bash".data, "9.9".data)] rfl).2
    [] "bash".data "9.9".data [] "4.4.19".data rfl (by simp) rfl rfl (by decide)

/-- C10: with version checking active (skip_version_check False) and
mapping targets, a package that is present as a substring of the output
but whose version pattern finds no match makes the call fail with the
untyped AttributeError from dereferencing the None search result, for
both validators. -/
theorem C10_theorem (env : Env) (hostR hostP : Option Str) (outR outP errR errP : Str)
    (preR preP postR postP : List (Str × Str)) (p e : Str)
    (hrunR : env.procRun rpmBaseCmd = (outR, errR, 0))
    (hrunP : env.procRun pipBaseCmd = (outP, errP, 0))
    (hpreR : ∀ q f, (q, f) ∈ preR → containsSub outR q = true ∧ rpmVersionSearch q outR = some f)
    (hpreP : ∀ q f, (q, f) ∈ preP → containsSub outP q = true ∧ pipVersionSearch q outP = some f)
    (hpR : containsSub outR p = true) (hnR : rpmVersionSearch p outR = none)
    (hpP : containsSub outP p = true) (hnP : pipVersionSearch p outP = none) :
    (validate_rpm_pkgs env PkgV.init hostR (Targets.mapping (preR ++ (p, e) :: postR)) false).1 =
      Except.error PyErr.attributeError ∧
    (validate_pip3_pkgs env PkgV.init hostP (Targets.mapping (preP ++ (p, e) :: postP)) false).1 =
      Except.error PyErr.attributeError := by
  constructor
  · have hE0 := execute_cmd_none env PkgV.init (rpmCmdFor PkgV.init hostR) outR errR 0 rfl hrunR
    have hE : (execute_cmd env PkgV.init (rpmCmdFor PkgV.init hostR)).1 = Except.ok outR := by
      rw [hE0]; simp
    rw [validate_rpm_pkgs_run env PkgV.init hostR
      (Targets.mapping (preR ++ (p, e) :: postR)) false outR hE]
    show checkPkgsRpm false outR (targetEntries (Targets.mapping (preR ++ (p, e) :: postR))) = _
    rw [show targetEntries (Targets.mapping (preR ++ (p, e) :: postR)) =
        preR ++ (p, e) :: postR from rfl,
      checkPkgsRpm_append false outR preR ((p, e) :: postR)
        (fun q f hq => ⟨(hpreR q f hq).1, fun _ => (hpreR q f hq).2⟩)]
    simp [checkPkgsRpm, hpR, hnR]
  · have hE0 := execute_cmd_none env PkgV.init (pipCmdFor PkgV.init hostP) outP errP 0 rfl hrunP
    have hE : (execute_cmd env PkgV.init (pipCmdFor PkgV.init hostP)).1 = Except.ok outP := by
      rw [hE0]; simp
    rw [validate_pip3_pkgs_run env PkgV.init hostP
      (Targets.mapping (preP ++ (p, e) :: postP)) false outP hE]
    show checkPkgsPip false outP (targetEntries (Targets.mapping (preP ++ (p, e) :: postP))) = _
    rw [show targetEntries (Targets.mapping (preP ++ (p, e) :: postP)) =
        preP ++ (p, e) :: postP from rfl,
      checkPkgsPip_append false outP preP ((p, e) :: postP)
        (fun q f hq => ⟨(hpreP q f hq).1, fun _ => (hpreP q f hq).2⟩)]
    simp [checkPkgsPip, hpP, hnP]

def outC10 : Str := "bash".data

def envC10 : Env := mkEnv false false outC10

/-- C10 witness: output holding the bare name bash with no version
pattern: the name is found, the search fails, the dereference raises
the AttributeError. -/
theorem C10_witness :
    (validate_rpm_pkgs envC10 PkgV.init none
        (Targets.mapping [("bash".data, "1.0".data)]) false).1 =
      Except.error PyErr.attributeError := by
  exact (C10_theorem envC10 none none outC10 outC10 [] [] [] [] [] []
    "bash".data "1.0".data rfl rfl (by simp) (by simp) rfl rfl rfl rfl).1

/-- C3 (amended): when the host is given, the passwordless probe fails,
and the unanchored pattern search finds no match anywhere in the host
string, the call fails with the invalid host-url VError before any
command executes. Hosts merely containing a matching substring proceed
to session establishment even when the whole string is not of the
user colon password at-sign host colon port shape. -/
theorem C3_theorem (env : Env) (st : PkgV) (v_type : Str) (args : Targets) (h : Str)
    (hne : h ≠ []) (hprobe : env.probeOk h = false) (hsearch : hostSearch h = none) :
    (validate env st v_type args (some h)).1 =
      Except.error (.verror EINVAL invalidHostMsg) ∧
    ∀ e, e ∈ (validate env st v_type args (some h)).2.2 → isExec e = false := by
  have hc := connPhase_badHost env st h hne hprobe hsearch
  rw [validate_connError env st v_type args (some h) _ _ hc]
  constructor
  · rfl
  · intro e he
    simp at he
    rw [he]
    rfl

def envC3 : Env := mkEnv false true "output".data

/-- C3 counterexample: the host string u:p@h:22 with a trailing blank is
not of the exact shape, yet the unanchored search matches the substring
and the call proceeds to session establishment and succeeds. -/
theorem C3_counterexample :
    exactShapeHost "u:p@h:22 ".data = false ∧
    hostSearch "u:p@h:22 ".data = some ("u".data, "p".data, "h".data, "22".data) ∧
    (validate envC3 PkgV.init "rpms".data (Targets.plain [])
        (some "u:p@h:22 ".data)).1 = Except.ok () ∧
    Event.sshConnect "h".data "u".data "p".data "22".data ∈
      (validate envC3 PkgV.init "rpms".data (Targets.plain [])
        (some "u:p@h:22 ".data)).2.2 :=
  ⟨rfl, rfl, rfl, by decide⟩

def envC3b : Env := mkEnv false false "output".data

/-- C3 witness: the host localhost has no pattern match; with a failed
probe the call fails with the invalid host-url VError. -/
theorem C3_witness :
    (validate envC3b PkgV.init "rpms".data (Targets.plain [])
        (some "localhost".data)).1 = Except.error (.verror EINVAL invalidHostMsg) := by
  exact (C3_theorem envC3b PkgV.init "rpms".data (Targets.plain []) "localhost".data
    (by decide) rfl rfl).1

/-- C8 (amended): a kind tag other than rpms and pip3s never executes a
command, and raises the unsupported-action VError naming the tag
whenever the connection phase completes; when the connection phase
itself fails, its own error is raised instead. -/
theorem C8_theorem (env : Env) (st : PkgV) (args : Targets) (host : Option Str) (v_type : Str)
    (hv1 : v_type ≠ "rpms".data) (hv2 : v_type ≠ "pip3s".data) :
    (∀ e, e ∈ (validate env st v_type args host).2.2 → isExec e = false) ∧
    (∀ st1 host1 tr, connPhase env st host = (Except.ok (st1, host1), tr) →
      (validate env st v_type args host).1 =
        Except.error (.verror EINVAL (unsupportedMsg v_type))) := by
  constructor
  · rcases hc : connPhase env st host with ⟨res, tr⟩
    have hno : ∀ e, e ∈ tr → isExec e = false := by
      have h0 := connPhase_no_exec env st host
      rw [hc] at h0
      simpa using h0
    cases res with
    | error e =>
      rw [validate_connError env st v_type args host e tr hc]
      intro ev hev
      exact hno ev (by simpa using hev)
    | ok p =>
      obtain ⟨st1, host1⟩ := p
      rw [validate_dispatch_other env st v_type args host st1 host1 tr hc hv1 hv2]
      intro ev hev
      exact hno ev (by simpa using hev)
  · intro st1 host1 tr hc
    rw [validate_dispatch_other env st v_type args host st1 host1 tr hc hv1 hv2]

def envC8 : Env := mkEnv false false "output".data

/-- C8 counterexample: with an unsupported kind tag and a host whose
probe fails and whose string has no pattern match, the call raises the
invalid host-url VError, not the unsupported-action one. -/
theorem C8_counterexample :
    (validate envC8 PkgV.init "disks".data (Targets.plain [])
        (some "badhost".data)).1 = Except.error (.verror EINVAL invalidHostMsg) ∧
    invalidHostMsg ≠ unsupportedMsg "disks".data :=
  ⟨rfl, by decide⟩

/-- C8 witness: with no host the connection phase completes trivially
and the unsupported tag raises the unsupported-action VError. -/
theorem C8_witness :
    (validate envC8 PkgV.init "disks".data (Targets.plain []) none).1 =
      Except.error (.verror EINVAL (unsupportedMsg "disks".data)) := by
  exact (C8_theorem envC8 PkgV.init (Targets.plain []) none "disks".data
    (by decide) (by decide)).2 PkgV.init none [] rfl

def outC2 : Str := "bash-4.4.19-12.x86_64".data

def envC2 : Env := mkEnv false true outC2

/-- C2: at the failing input (explicit session established because the
probe failed, remote output containing the package, validation
succeeding) the session is never disconnected: the call returns success
with the session still held and no disconnect in the trace, because the
source disconnect statement stands after the dispatch return. -/
theorem C2_theorem :
    (validate envC2 PkgV.init "rpms".data (Targets.plain ["bash".data])
        (some "usr:pw@hst:22".data)).1 = Except.ok () ∧
    (validate envC2 PkgV.init "rpms".data (Targets.plain ["bash".data])
        (some "usr:pw@hst:22".data)).2.1.ssh = some () ∧
    Event.sshConnect "hst".data "usr".data "pw".data "22".data ∈
      (validate envC2 PkgV.init "rpms".data (Targets.plain ["bash".data])
        (some "usr:pw@hst:22".data)).2.2 ∧
    Event.disconnect ∉
      (validate envC2 PkgV.init "rpms".data (Targets.plain ["bash".data])
        (some "usr:pw@hst:22".data)).2.2 :=
  ⟨rfl, rfl, by decide, by decide⟩

theorem validate_state (env : Env) (st : PkgV) (v_type : Str) (args : Targets)
    (host : Option Str) (st1 : PkgV) (host1 : Option Str) (tr : List Event)
    (hc : connPhase env st host = (Except.ok (st1, host1), tr)) :
    (validate env st v_type args host).2.1 = st1 := by
  by_cases hv1 : v_type = "rpms".data
  · rw [validate_dispatch_rpm env st v_type args host st1 host1 tr hc hv1]
  · by_cases hv2 : v_type = "pip3s".data
    · rw [validate_dispatch_pip env st v_type args host st1 host1 tr hc hv2]
    · rw [validate_dispatch_other env st v_type args host st1 host1 tr hc hv1 hv2]

theorem validate_exec_events_none (env : Env) (st : PkgV) (v_type : Str) (args : Targets)
    (host : Option Str) (st1 : PkgV) (host1 : Option Str) (tr : List Event)
    (hc : connPhase env st host = (Except.ok (st1, host1), tr)) (hssh : st1.ssh = none) :
    ∀ e, e ∈ (validate env st v_type args host).2.2 → isExec e = true →
      e = Event.execLocal (rpmCmdFor st1 host1) ∨ e = Event.execLocal (pipCmdFor st1 host1) := by
  have hno : ∀ e, e ∈ tr → isExec e = false := by
    have h0 := connPhase_no_exec env st host
    rw [hc] at h0
    simpa using h0
  by_cases hv1 : v_type = "rpms".data
  · rw [validate_dispatch_rpm env st v_type args host st1 host1 tr hc hv1]
    intro e he hex
    simp at he
    rcases he with h1 | h1
    · rw [hno e h1] at hex
      simp at hex
    · rw [validate_rpm_pkgs_trace, execute_cmd_trace, hssh] at h1
      simp at h1
      left
      exact h1
  · by_cases hv2 : v_type = "pip3s".data
    · rw [validate_dispatch_pip env st v_type args host st1 host1 tr hc hv2]
      intro e he hex
      simp at he
      rcases he with h1 | h1
      · rw [hno e h1] at hex
        simp at hex
      · rw [validate_pip3_pkgs_trace, execute_cmd_trace, hssh] at h1
        simp at h1
        right
        exact h1
    · rw [validate_dispatch_other env st v_type args host st1 host1 tr hc hv1 hv2]
      intro e he hex
      rw [hno e (by simpa using he)] at hex
      simp at hex

theorem validate_exec_events_some (env : Env) (st : PkgV) (v_type : Str) (args : Targets)
    (host : Option Str) (st1 : PkgV) (host1 : Option Str) (tr : List Event) (u : Unit)
    (hc : connPhase env st host = (Except.ok (st1, host1), tr)) (hssh : st1.ssh = some u) :
    ∀ e, e ∈ (validate env st v_type args host).2.2 → isExec e = true →
      e = Event.execSsh (rpmCmdFor st1 host1) ∨ e = Event.execSsh (pipCmdFor st1 host1) := by
  have hno : ∀ e, e ∈ tr → isExec e = false := by
    have h0 := connPhase_no_exec env st host
    rw [hc] at h0
    simpa using h0
  by_cases hv1 : v_type = "rpms".data
  · rw [validate_dispatch_rpm env st v_type args host st1 host1 tr hc hv1]
    intro e he hex
    simp at he
    rcases he with h1 | h1
    · rw [hno e h1] at hex
      simp at hex
    · rw [validate_rpm_pkgs_trace, execute_cmd_trace, hssh] at h1
      simp at h1
      left
      exact h1
  · by_cases hv2 : v_type = "pip3s".data
    · rw [validate_dispatch_pip env st v_type args host st1 host1 tr hc hv2]
      intro e he hex
      simp at he
      rcases he with h1 | h1
      · rw [hno e h1] at hex
        simp at hex
      · rw [validate_pip3_pkgs_trace, execute_cmd_trace, hssh] at h1
        simp at h1
        right
        exact h1
    · rw [validate_dispatch_other env st v_type args host st1 host1 tr hc hv1 hv2]
      intro e he hex
      rw [hno e (by simpa using he)] at hex
      simp at hex

/-- C6: a successful passwordless probe sets the passwordless flag,
creates no session object, and every command executed afterwards in
that call is the base command wrapped with the ssh host prefix, run
through the local-process path; with no host, or with an explicit
session established after a failed probe, the executed commands are the
unwrapped base commands (locally in the first case, delegated to the
session in the second). -/
theorem C6_theorem (env : Env) (args : Targets) (v_type : Str) (h : Str)
    (hne : h ≠ []) (hprobe : env.probeOk h = true) :
    ((validate env PkgV.init v_type args (some h)).2.1.passwdless_ssh_enabled = true ∧
     (validate env PkgV.init v_type args (some h)).2.1.ssh = none ∧
     (∀ e, e ∈ (validate env PkgV.init v_type args (some h)).2.2 → isExec e = true →
        e = Event.execLocal ("ssh ".data ++ h ++ " ".data ++ rpmBaseCmd) ∨
        e = Event.execLocal ("ssh ".data ++ h ++ " ".data ++ pipBaseCmd)))
    ∧ (∀ e, e ∈ (validate env PkgV.init v_type args none).2.2 → isExec e = true →
        e = Event.execLocal rpmBaseCmd ∨ e = Event.execLocal pipBaseCmd)
    ∧ (∀ h2 u pw hp2 port, h2 ≠ [] → env.probeOk h2 = false →
        hostSearch h2 = some (u, pw, hp2, port) → env.sshConnectOk = true →
        ∀ e, e ∈ (validate env PkgV.init v_type args (some h2)).2.2 → isExec e = true →
          e = Event.execSsh rpmBaseCmd ∨ e = Event.execSsh pipBaseCmd) := by
  have hcA := connPhase_probe env PkgV.init h hne hprobe
  refine ⟨⟨?_, ?_, ?_⟩, ?_, ?_⟩
  · rw [validate_state env PkgV.init v_type args (some h) _ _ _ hcA]
  · rw [validate_state env PkgV.init v_type args (some h) _ _ _ hcA]
    rfl
  · exact validate_exec_events_none env PkgV.init v_type args (some h) _ (some h) _ hcA rfl
  · exact validate_exec_events_none env PkgV.init v_type args none PkgV.init none []
      (connPhase_none env PkgV.init) rfl
  · intro h2 u pw hp2 port hne2 hpr2 hs2 hco2
    have hcC := connPhase_connect env PkgV.init h2 u pw hp2 port hne2 hpr2 hs2 hco2
    exact validate_exec_events_some env PkgV.init v_type args (some h2) _ (some hp2) _ ()
      hcC rfl

def envC6 : Env := mkEnv true false "output".data

/-- C6 witness: a concrete probe success leaves the flag set on the
returned state. -/
theorem C6_witness :
    (validate envC6 PkgV.init "rpms".data (Targets.plain [])
        (some "hostA".data)).2.1.passwdless_ssh_enabled = true := by
  exact ((C6_theorem envC6 (Targets.plain []) "rpms".data "hostA".data
    (by decide) rfl).1).1

/-- C9 (amended): the connection-state fields are initialized at
construction and only conditionally set inside validate, never reset:
a true passwordless flag survives any further validate call on the same
instance, and a later call with no host on such an instance still wraps
its command, producing the literal ssh None rpm -qa through the
local-process path instead of the unwrapped local command. -/
theorem C9_theorem (env : Env) (st : PkgV) (v_type : Str) (args args2 : Targets)
    (host : Option Str) (hp : st.passwdless_ssh_enabled = true) (hssh : st.ssh = none) :
    (validate env st v_type args host).2.1.passwdless_ssh_enabled = true ∧
    (validate env st "rpms".data args2 none).2.2 =
      [Event.execLocal "ssh None rpm -qa".data] := by
  constructor
  · exact validate_flag_mono env st v_type args host hp
  · have hcmd : rpmCmdFor st none = "ssh None rpm -qa".data := by
      unfold rpmCmdFor
      rw [hp]
      decide
    rw [validate_dispatch_rpm env st "rpms".data args2 none st none []
      (connPhase_none env st) rfl]
    show [] ++ (validate_rpm_pkgs env st none args2 true).2 = _
    rw [List.nil_append, validate_rpm_pkgs_trace, execute_cmd_trace, hssh, hcmd]

def outC9 : Str := "bash-4.4.19-12.x86_64".data

def envC9 : Env := mkEnv true false outC9

/-- C9 counterexample: a first call with a host whose probe succeeds
leaves the flag set; a second call on the same instance with no host
does not run the unwrapped local command, but the stale-wrapped
ssh None rpm -qa, so connection state set by one invocation does
influence a later one. -/
theorem C9_counterexample :
    (validate envC9 PkgV.init "rpms".data (Targets.plain ["bash".data])
        (some "h1".data)).1 = Except.ok () ∧
    (validate envC9
        (validate envC9 PkgV.init "rpms".data (Targets.plain ["bash".data])
          (some "h1".data)).2.1
        "rpms".data (Targets.plain ["bash".data]) none).2.2 =
      [Event.execLocal "ssh None rpm -qa".data] ∧
    (validate envC9
        (validate envC9 PkgV.init "rpms".data (Targets.plain ["bash".data])
          (some "h1".data)).2.1
        "rpms".data (Targets.plain ["bash".data]) none).2.1.passwdless_ssh_enabled = true :=
  ⟨rfl, rfl, rfl⟩

/-- C9 witness: the amended statement applied at a state carrying a
stale passwordless flag. -/
theorem C9_witness :
    (validate envC9 { passwdless_ssh_enabled := true, ssh := none } "rpms".data
        (Targets.plain []) none).2.2 = [Event.execLocal "ssh None rpm -qa".data] := by
  exact (C9_theorem envC9 { passwdless_ssh_enabled := true, ssh := none } "rpms".data
    (Targets.plain []) (Targets.plain []) none rfl rfl).2
